import Mathlib

/-!
A verification development for the Simple Packet Terminal (SPT) KISS/AX.25
link engine.  Python byte strings are modelled as `List Nat` (each entry one
byte value), Python text strings as `List Char`.  Stateful methods of the
`KissLink` class become functions from an explicit `Link` state to an updated
state together with the list of KISS frames written to the socket and the
list of payload lines delivered to the `on_rx_line` callback.
-/

namespace SPT

/-! ### KISS and AX.25 constants (SPT.py lines 35-55) -/

def FEND : Nat := 0xC0
def FESC : Nat := 0xDB
def TFEND : Nat := 0xDC
def TFESC : Nat := 0xDD
def KISS_DATA : Nat := 0x00

def CTRL_SABM : Nat := 0x2F
def CTRL_SABME : Nat := 0x6F
def CTRL_UA : Nat := 0x63
def CTRL_DISC : Nat := 0x43
def CTRL_DM : Nat := 0x0F
def CTRL_FRMR : Nat := 0x87
def CTRL_UI : Nat := 0x03

def S_RR : Nat := 0x01
def S_RNR : Nat := 0x05
def S_REJ : Nat := 0x09

def PID_NO_L3 : Nat := 0xF0

/-! ### KISS framing (SPT.py lines 140-162) -/

/-- One pass of Python `payload.replace(bytes([a]), bytes(sub))` for a
single-byte pattern `a`: every occurrence of the byte `a` is replaced by the
byte sequence `sub`, scanning left to right. -/
def replace1 (a : Nat) (sub : List Nat) : List Nat → List Nat
  | [] => []
  | b :: rest => (if b = a then sub else [b]) ++ replace1 a sub rest

/-- `kiss_escape` (SPT.py lines 141-144): first replace `FESC` with
`FESC TFESC`, then replace `FEND` with `FESC TFEND`. -/
def kiss_escape (payload : List Nat) : List Nat :=
  replace1 FEND [FESC, TFEND] (replace1 FESC [FESC, TFESC] payload)

/-- `kiss_unescape` (SPT.py lines 146-159): a `FESC` followed by another
byte consumes both, emitting `FEND` for `TFEND`, `FESC` for `TFESC`, and the
second byte itself otherwise; a `FESC` with no byte after it (and any
non-`FESC` byte) is emitted literally. -/
def kiss_unescape : List Nat → List Nat
  | [] => []
  | [b] => [b]
  | b :: c :: rest =>
    if b = FESC then
      (if c = TFEND then FEND else if c = TFESC then FESC else c) :: kiss_unescape rest
    else
      b :: kiss_unescape (c :: rest)

/-- `kiss_wrap_data` (SPT.py lines 161-162). -/
def kiss_wrap_data (port : Nat) (data : List Nat) : List Nat :=
  FEND :: ((port <<< 4) ||| KISS_DATA) :: (kiss_escape data ++ [FEND])

/-! ### Python string helpers -/

/-- Python `str.upper`, character by character (callsigns are ASCII). -/
def pyUpper (s : List Char) : List Char := s.map Char.toUpper

/-- Python whitespace, as tested by `str.strip` / `str.rstrip`. -/
def isPySpace (c : Char) : Bool :=
  c == ' ' || c == '\t' || c == '\n' || c == '\r' || c == '\x0b' || c == '\x0c'

/-- Python `str.rstrip()`. -/
def pyRstrip (l : List Char) : List Char :=
  (l.reverse.dropWhile isPySpace).reverse

/-- Python `str.strip()`. -/
def pyStrip (l : List Char) : List Char :=
  pyRstrip (l.dropWhile isPySpace)

/-- Python `int(...)` on a decimal digit string. -/
def digitsToNat (l : List Char) : Nat :=
  l.foldl (fun acc c => acc * 10 + (c.toNat - 48)) 0

/-- Python `str(ssid)` for an SSID in [0,15] (the only values that arise:
SSIDs are always masked with `0x0F` before being rendered). -/
def ssid_str (s : Nat) : List Char :=
  if s < 10 then [Char.ofNat (48 + s)] else ['1', Char.ofNat (48 + (s - 10))]

/-- Python `call.split('-')[0]`: the characters before the first `'-'`. -/
def takeUntilDash : List Char → List Char
  | [] => []
  | c :: rest => if c = '-' then [] else c :: takeUntilDash rest

/-- The characters after the first `'-'` (so that
`takeUntilDash (dropThroughDash l)` is Python `l.split('-')[1]`). -/
def dropThroughDash : List Char → List Char
  | [] => []
  | c :: rest => if c = '-' then rest else dropThroughDash rest

/-! ### AX.25 address codec (SPT.py lines 82-138) -/

/-- Encoding of one callsign character: `(ord(ch) << 1) & 0xFE`. -/
def enc_char (c : Char) : Nat := (c.toNat <<< 1) &&& 0xFE

/-- Decoding of one address byte: `chr((b >> 1) & 0x7F)`. -/
def dec_char (b : Nat) : Char := Char.ofNat ((b >>> 1) &&& 0x7F)

/-- `ax25_addr_bytes` (SPT.py lines 92-108): build one 7-byte AX.25 address
field.  The base callsign is uppercased, truncated/padded to 6 characters
with spaces, each character shifted left one bit; the 7th byte carries the
SSID in bits 4-1, bit 6 set, C/H in bit 7 and the last-address marker in
bit 0. -/
def ax25_addr_bytes (call : List Char) (set_last command has_been_repeated : Bool) :
    List Nat :=
  let call_up := takeUntilDash (pyUpper call)
  let ssid := if '-' ∈ call then digitsToNat (takeUntilDash (dropThroughDash call)) else 0
  let padded := (call_up ++ List.replicate 6 ' ').take 6
  let b0 := 0x60 ||| ((ssid &&& 0x0F) <<< 1)
  let b1 := if command then b0 ||| 0x80 else b0
  let b2 := if has_been_repeated then b1 ||| 0x80 else b1
  let b3 := if set_last then b2 ||| 0x01 else b2
  padded.map enc_char ++ [b3]

/-- The digipeater part of `build_ax25_header` (SPT.py lines 117-119): every
digipeater address with `command := false`, `has_been_repeated := false`, and
`set_last` on the final entry only. -/
def digi_addrs : List (List Char) → List Nat
  | [] => []
  | [d] => ax25_addr_bytes d true false false
  | d :: rest => ax25_addr_bytes d false false false ++ digi_addrs rest

/-- `build_ax25_header` (SPT.py lines 110-120). -/
def build_ax25_header (dest src : List Char) (digis : List (List Char)) (cmd : Bool) :
    List Nat :=
  ax25_addr_bytes dest false cmd false
    ++ ax25_addr_bytes src digis.isEmpty (!cmd) false
    ++ digi_addrs digis

/-- `decode7` inside `decode_addrs` (SPT.py lines 124-127): decode the first
six bytes, strip trailing whitespace, and render `f"{call}-{ssid}"`. -/
def decode7 (b : List Nat) : List Char :=
  pyRstrip ((b.take 6).map dec_char) ++ '-' :: ssid_str ((b.getD 6 0 >>> 1) &&& 0x0F)

/-- The digipeater-skipping `while` loop of `decode_addrs` (SPT.py lines
133-137), with explicit fuel (the loop advances by 7 each step, so
`frame.length` steps always suffice). -/
def addr_scan (frame : List Nat) : Nat → Nat → Nat
  | i, 0 => i
  | i, fuel + 1 =>
    if i + 7 ≤ frame.length then
      if frame.getD (i + 6) 0 &&& 0x01 ≠ 0 then i + 7 else addr_scan frame (i + 7) fuel
    else i

/-- `decode_addrs` (SPT.py lines 122-138). -/
def decode_addrs (frame : List Nat) : List Char × List Char × Nat :=
  if frame.length < 14 then ([], [], 0)
  else
    let dest := decode7 (frame.take 7)
    let src := decode7 ((frame.drop 7).take 7)
    let last := frame.getD 13 0 &&& 0x01
    let i := if last ≠ 0 then 14 else addr_scan frame 14 frame.length
    (dest, src, i)

/-! ### UTF-8 and text normalisation -/

/-- U+FFFD, the replacement character used by `errors="replace"`. -/
def uReplacement : Char := '�'

/-- UTF-8 encoding of one character (Python `str.encode("utf-8")`). -/
def utf8Char (c : Char) : List Nat :=
  let n := c.toNat
  if n < 0x80 then [n]
  else if n < 0x800 then [0xC0 ||| (n >>> 6), 0x80 ||| (n &&& 0x3F)]
  else if n < 0x10000 then
    [0xE0 ||| (n >>> 12), 0x80 ||| ((n >>> 6) &&& 0x3F), 0x80 ||| (n &&& 0x3F)]
  else
    [0xF0 ||| (n >>> 18), 0x80 ||| ((n >>> 12) &&& 0x3F),
     0x80 ||| ((n >>> 6) &&& 0x3F), 0x80 ||| (n &&& 0x3F)]

def utf8Encode (s : List Char) : List Nat := (s.map utf8Char).flatten

/-- UTF-8 decoding with replacement (Python `bytes.decode("utf-8",
errors="replace")`), with fuel (each step consumes at least one byte, so
`l.length` steps suffice).  Modelled on the well-formed paths; malformed
sequences produce `uReplacement`. -/
def utf8DecodeAux : Nat → List Nat → List Char
  | 0, _ => []
  | _, [] => []
  | fuel + 1, b :: rest =>
    if b < 0x80 then Char.ofNat b :: utf8DecodeAux fuel rest
    else if 0xC2 ≤ b ∧ b ≤ 0xDF then
      match rest with
      | c :: rest2 =>
        if 0x80 ≤ c ∧ c ≤ 0xBF then
          Char.ofNat (((b &&& 0x1F) <<< 6) ||| (c &&& 0x3F)) :: utf8DecodeAux fuel rest2
        else uReplacement :: utf8DecodeAux fuel rest
      | [] => [uReplacement]
    else if 0xE0 ≤ b ∧ b ≤ 0xEF then
      match rest with
      | c :: d :: rest2 =>
        if (0x80 ≤ c ∧ c ≤ 0xBF) ∧ (0x80 ≤ d ∧ d ≤ 0xBF) then
          Char.ofNat (((b &&& 0x0F) <<< 12) ||| ((c &&& 0x3F) <<< 6) ||| (d &&& 0x3F)) ::
            utf8DecodeAux fuel rest2
        else uReplacement :: utf8DecodeAux fuel rest
      | _ => uReplacement :: utf8DecodeAux fuel rest
    else if 0xF0 ≤ b ∧ b ≤ 0xF4 then
      match rest with
      | c :: d :: e :: rest2 =>
        if (0x80 ≤ c ∧ c ≤ 0xBF) ∧ (0x80 ≤ d ∧ d ≤ 0xBF) ∧ (0x80 ≤ e ∧ e ≤ 0xBF) then
          Char.ofNat (((b &&& 0x07) <<< 18) ||| ((c &&& 0x3F) <<< 12) |||
              ((d &&& 0x3F) <<< 6) ||| (e &&& 0x3F)) :: utf8DecodeAux fuel rest2
        else uReplacement :: utf8DecodeAux fuel rest
      | _ => uReplacement :: utf8DecodeAux fuel rest
    else uReplacement :: utf8DecodeAux fuel rest

def utf8Decode (l : List Nat) : List Char := utf8DecodeAux l.length l

/-- Python `chunk.replace("\r\n", "\n")`, left to right, non-overlapping. -/
def replaceCRLF : List Char → List Char
  | '\r' :: '\n' :: rest => '\n' :: replaceCRLF rest
  | c :: rest => c :: replaceCRLF rest
  | [] => []

/-- `chunk.replace("\r\n", "\n").replace("\r", "\n")` (SPT.py line 528). -/
def normNewlines (l : List Char) : List Char :=
  (replaceCRLF l).map (fun c => if c = '\r' then '\n' else c)

/-- The `while "\n" in self.appbuf` splitting loop (SPT.py lines 531-532) as
a single pass: returns the list of complete (newline-terminated) lines and
the trailing remainder. -/
def splitLines : List Char → List (List Char) × List Char
  | [] => ([], [])
  | c :: rest =>
    let sp := splitLines rest
    if c = '\n' then ([] :: sp.1, sp.2)
    else
      match sp.1 with
      | [] => ([], c :: sp.2)
      | l :: ls => ((c :: l) :: ls, sp.2)

/-- Python `s[-n:]`. -/
def takeLast (n : Nat) (l : List Char) : List Char := l.drop (l.length - n)

/-! ### Link state (the `KissLink` class, SPT.py lines 165-207)

Socket handling, threading, timers and UI callbacks are outside the model;
the fields kept are the ones the AX.25 engine reads or writes.  The pager
regex engine (`PROMPT_PATTERNS` / `_detect_pager_prompt`) is not modelled:
detection outcomes are supplied through a `Detector` parameter that receives
the rolling tail and the current line, mirroring `_detect_pager_prompt`'s
inputs. -/

inductive LinkState where
  | DISCONNECTED
  | AWAIT_UA
  | CONNECTED
deriving DecidableEq, Repr

/-- The outcome of `_detect_pager_prompt`, as a function of the (already
updated) rolling tail and the line being inspected. -/
abbrev Detector := List Char → List Char → Bool

structure Link where
  state : LinkState
  dest : Option (List Char)
  mycall : List Char
  digis : List (List Char)
  vs : Nat
  vr : Nat
  appbuf : List Char
  tx_newline : List Char
  pending : List (List Char)
  more_prompt_pending : Bool
  recent_tail : List Char
  ua_event : Bool
  dm_fallback_tried : Bool
  unproto_mode : Bool
deriving DecidableEq, Repr

/-- `KissLink.__init__` (SPT.py lines 166-206): `mycall` is uppercased, all
link-state fields start cleared. -/
def initLink (mycall : List Char) : Link :=
  { state := .DISCONNECTED, dest := none, mycall := pyUpper mycall, digis := [],
    vs := 0, vr := 0, appbuf := [], tx_newline := ['\r'], pending := [],
    more_prompt_pending := false, recent_tail := [], ua_event := false,
    dm_fallback_tried := false, unproto_mode := false }

/-! ### Frame transmit helpers (SPT.py lines 238-291)

Each returns the KISS frames written to the socket (`_send_ax25` performs
one `sendall` of `kiss_wrap_data(port, raw)` per call). -/

/-- `_send_sabme` (SPT.py lines 250-253). -/
def send_sabme (l : Link) (dest : List Char) : List Nat :=
  kiss_wrap_data 0 (build_ax25_header dest l.mycall l.digis true ++ [CTRL_SABME ||| 0x10])

/-- `_send_sabm` (SPT.py lines 245-248), called with `self.dest`. -/
def send_sabm (l : Link) : List (List Nat) :=
  match l.dest with
  | none => []
  | some d =>
    [kiss_wrap_data 0 (build_ax25_header d l.mycall l.digis true ++ [CTRL_SABM ||| 0x10])]

/-- `_send_disc` (SPT.py lines 255-259). -/
def send_disc (l : Link) : List (List Nat) :=
  match l.dest with
  | none => []
  | some d =>
    [kiss_wrap_data 0 (build_ax25_header d l.mycall l.digis true ++ [CTRL_DISC ||| 0x10])]

/-- `_send_rr` (SPT.py lines 261-268): N(r) = `vr`, never advancing it. -/
def send_rr (l : Link) (is_command : Bool) (pf : Nat) : List (List Nat) :=
  match l.dest with
  | none => []
  | some d =>
    let c0 := S_RR ||| ((l.vr &&& 0x07) <<< 5)
    let c1 := if pf ≠ 0 then c0 ||| 0x10 else c0
    [kiss_wrap_data 0 (build_ax25_header d l.mycall l.digis is_command ++ [c1])]

/-- `_send_ua` (SPT.py lines 270-274): always response orientation. -/
def send_ua (l : Link) (final : Nat) : List (List Nat) :=
  match l.dest with
  | none => []
  | some d =>
    [kiss_wrap_data 0 (build_ax25_header d l.mycall l.digis false
      ++ [CTRL_UA ||| (if final ≠ 0 then 0x10 else 0)])]

/-- `_send_i` (SPT.py lines 276-282): control is built from the current
`vs`/`vr`, then `vs` advances by 1 mod 8. -/
def send_i (l : Link) (text : List Nat) : Link × List (List Nat) :=
  match l.dest with
  | none => (l, [])
  | some d =>
    if l.state = LinkState.CONNECTED then
      let ctrl := ((l.vs &&& 0x07) <<< 1) ||| ((l.vr &&& 0x07) <<< 5)
      ({ l with vs := (l.vs + 1) &&& 7 },
       [kiss_wrap_data 0 (build_ax25_header d l.mycall l.digis true
         ++ [ctrl, PID_NO_L3] ++ text)])
    else (l, [])

/-- `send_text` (SPT.py lines 392-396): append `tx_newline`, UTF-8 encode,
transmit as an I-frame.  (`local_echo` only affects UI output.) -/
def send_text (l : Link) (line : List Char) : Link × List (List Nat) :=
  send_i l (utf8Encode (line ++ l.tx_newline))

/-- Iterating `send_text` over a list of lines, collecting all frames. -/
def send_text_all : Link → List (List Char) → Link × List (List Nat)
  | l, [] => (l, [])
  | l, ln :: rest =>
    let r1 := send_text l ln
    let r2 := send_text_all r1.1 rest
    (r2.1, r1.2 ++ r2.2)

/-- `_flush_after_connect` (SPT.py lines 333-340): copy and clear `pending`,
then `send_text` each queued line in FIFO order. -/
def flush_after_connect (l : Link) : Link × List (List Nat) :=
  send_text_all { l with pending := [] } l.pending

/-- `queue_after_connect` (SPT.py lines 329-331). -/
def queue_after_connect (l : Link) (line : List Char) : Link :=
  { l with pending := l.pending ++ [line] }

/-- `_incoming_is_command` (SPT.py lines 342-344). -/
def incoming_is_command (raw : List Nat) : Prop :=
  7 ≤ raw.length ∧ raw.getD 6 0 &&& 0x80 ≠ 0

instance (raw : List Nat) : Decidable (incoming_is_command raw) := by
  unfold incoming_is_command; infer_instance

/-! ### Public operations (SPT.py lines 346-403) -/

/-- The entry of `call` (SPT.py lines 347-356), before the retry loop:
uppercase and store the peer, reset `vs`/`vr`, enter AWAIT_UA, clear the
handshake latches and any old pending lines. -/
def call_entry (l : Link) (dest : List Char) : Link :=
  { l with
    dest := some (pyUpper dest), vs := 0, vr := 0, state := .AWAIT_UA,
    ua_event := false, dm_fallback_tried := false, pending := [] }

/-- The first iteration of `call`'s retry loop (SPT.py lines 359-363):
attempt 1 probes with SABME. -/
def call_first_probe (l : Link) (dest : List Char) : Link × List Nat :=
  let l1 := call_entry l dest
  (l1, send_sabme l1 (pyUpper dest))

/-- The retries-exhausted tail of `call` (SPT.py lines 377-380): back to
DISCONNECTED, clearing only `dest`. -/
def call_timeout (l : Link) : Link :=
  { l with state := .DISCONNECTED, dest := none }

/-- `disconnect` (SPT.py lines 382-390). -/
def disconnect (l : Link) : Link × List (List Nat) :=
  let fs := if l.state = LinkState.CONNECTED then send_disc l else []
  ({ l with state := .DISCONNECTED, dest := none, appbuf := [], pending := [] }, fs)

/-! ### Pager-prompt bookkeeping (SPT.py lines 293-297 and 461-475) -/

/-- `_update_recent_tail` (SPT.py lines 293-297): append and keep the last
512 characters; empty text is a no-op. -/
def update_recent_tail (l : Link) (s : List Char) : Link :=
  if s = [] then l else { l with recent_tail := takeLast 512 (l.recent_tail ++ s) }

/-- `_check_more_prompt` (SPT.py lines 461-475): update the rolling tail,
then ask the detector; a hit sets `more_prompt_pending`, and nothing in this
method ever clears it. -/
def check_more_prompt (det : Detector) (l : Link) (text : List Char) : Link :=
  let l1 := update_recent_tail l text
  if det l1.recent_tail text then { l1 with more_prompt_pending := true } else l1

/-- `_check_more_prompt` of the GPT.py variant (GPT.py lines 309-316), which
keeps no rolling tail: the stripped text is matched against the prompt
patterns (supplied here as the `search` parameter); a hit sets the flag, and
otherwise any non-empty stripped text CLEARS it. -/
def check_more_prompt_gpt (search : List Char → Bool) (flag : Bool)
    (text : List Char) : Bool :=
  let t := pyStrip text
  if search t then true
  else if t ≠ [] then false
  else flag

/-! ### The receive-side frame handler (`_handle_ax25`, SPT.py lines 478-634) -/

/-- The observable outcome of processing one received AX.25 frame: the new
link state, the KISS frames transmitted, and the payload lines delivered to
`on_rx_line`.  (System notices sent to `on_line` carry no protocol content
and are not modelled.) -/
structure RxResult where
  link : Link
  tx : List (List Nat)
  rx_lines : List (List Char)
deriving DecidableEq, Repr

/-- The per-line body of the `while "\n" in self.appbuf` loop (SPT.py lines
531-538): each complete line is right-stripped, emitted, and fed to
`_check_more_prompt`. -/
def emit_lines (det : Detector) : Link → List (List Char) → Link × List (List Char)
  | l, [] => (l, [])
  | l, ln :: rest =>
    let s := pyRstrip ln
    let l1 := check_more_prompt det l s
    let r := emit_lines det l1 rest
    (r.1, s :: r.2)

/-- `_handle_ax25` (SPT.py lines 478-634). -/
def handle_ax25 (det : Detector) (l : Link) (raw : List Nat) : RxResult :=
  let dsi := decode_addrs raw
  let i := dsi.2.2
  if i = 0 ∨ raw.length ≤ i then ⟨l, [], []⟩
  else
    let ctrl := raw.getD i 0
    let base := ctrl &&& 0xEF
    if ctrl &&& 0x01 = 0 then
      -- I-frame (SPT.py lines 503-554)
      let ns := (ctrl >>> 1) &&& 0x07
      let pf_in : Nat := if ctrl &&& 0x10 ≠ 0 then 1 else 0
      if raw.length ≤ i + 1 then ⟨l, [], []⟩
      else
        let info := raw.drop (i + 2)
        -- implicit-UA latch (SPT.py lines 511-519); NOTE: no flush here
        let l1 := if l.state = LinkState.AWAIT_UA then
            { l with ua_event := true, state := LinkState.CONNECTED }
          else l
        if ns = l1.vr then
          let l2 := { l1 with vr := (l1.vr + 1) &&& 7 }
          let rr := send_rr l2 false pf_in
          let chunk := normNewlines (utf8Decode info)
          let sp := splitLines (l2.appbuf ++ chunk)
          let el := emit_lines det { l2 with appbuf := sp.2 } sp.1
          let l3 := el.1
          if pf_in ≠ 0 ∧ l3.appbuf ≠ [] then
            let peek := pyRstrip l3.appbuf
            if peek ≠ [] then
              let l4 := check_more_prompt det l3 peek
              ⟨{ l4 with appbuf := [] }, rr, el.2 ++ [peek]⟩
            else ⟨l3, rr, el.2⟩
          else ⟨l3, rr, el.2⟩
        else
          -- out of sequence: ACK current vr without moving it (lines 551-553)
          ⟨l1, send_rr l1 false 0, []⟩
    else if base = CTRL_UI then
      -- UI frames, monitor mode only (SPT.py lines 556-571)
      if l.unproto_mode then
        if raw.length ≤ i + 1 then ⟨l, [], []⟩
        else
          let text := pyRstrip (normNewlines (utf8Decode (raw.drop (i + 2))))
          ⟨l, [],
           ["[RX UI] ".toList ++ dsi.2.1 ++ " > ".toList ++ dsi.1 ++ " :: ".toList ++ text]⟩
      else ⟨l, [], []⟩
    else if base = CTRL_UA then
      -- UA (SPT.py lines 573-582): latch; in AWAIT_UA connect and flush
      let l1 := { l with ua_event := true }
      if l1.state = LinkState.AWAIT_UA then
        let l2 := { l1 with state := LinkState.CONNECTED }
        let fl := flush_after_connect l2
        ⟨fl.1, fl.2, []⟩
      else ⟨l1, [], []⟩
    else if base = CTRL_DM then
      -- DM (SPT.py lines 584-595): one-shot SABM fallback, else disconnect
      if l.state = LinkState.AWAIT_UA ∧ l.dest.isSome ∧ l.dm_fallback_tried = false then
        ⟨{ l with dm_fallback_tried := true }, send_sabm l, []⟩
      else
        ⟨{ l with state := LinkState.DISCONNECTED, dest := none, appbuf := [] }, [], []⟩
    else if base = CTRL_FRMR then
      -- FRMR (SPT.py lines 597-602)
      if l.state = LinkState.AWAIT_UA ∧ l.dest.isSome then ⟨l, send_sabm l, []⟩
      else ⟨l, [], []⟩
    else if base = CTRL_DISC then
      -- DISC (SPT.py lines 604-616): honoured only when CONNECTED
      if l.state = LinkState.CONNECTED then
        ⟨{ l with state := LinkState.DISCONNECTED, dest := none, appbuf := [] },
         send_ua l 1, []⟩
      else ⟨l, [], []⟩
    else
      -- S-frames (SPT.py lines 618-634)
      let s_code := ctrl &&& 0x0F
      if s_code = S_RR ∨ s_code = S_RNR ∨ s_code = S_REJ then
        let pf_in : Nat := if ctrl &&& 0x10 ≠ 0 then 1 else 0
        if pf_in ≠ 0 ∧ incoming_is_command raw then ⟨l, send_rr l false 1, []⟩
        else ⟨l, [], []⟩
      else ⟨l, [], []⟩

/-! ### Concrete stations and frames used in closed statements -/

/-- A detector that never fires (a line matching no `PROMPT_PATTERNS`). -/
def detFalse : Detector := fun _ _ => false

/-- The legal callsign-base alphabet: uppercase ASCII letters and digits. -/
def upperAlnumChars : List Char :=
  ['A', 'B', 'C', 'D', 'E', 'F', 'G', 'H', 'I', 'J', 'K', 'L', 'M',
   'N', 'O', 'P', 'Q', 'R', 'S', 'T', 'U', 'V', 'W', 'X', 'Y', 'Z',
   '0', '1', '2', '3', '4', '5', '6', '7', '8', '9']

/-- The byte sequence the specification claims for the first probe. -/
def c2_spec_bytes : List Nat :=
  [0xC0, 0x00, 0x82, 0xE2, 0x82, 0x82, 0xA0, 0xA0, 0x60,
   0x9C, 0x9E, 0x82, 0x86, 0xA0, 0xA0, 0x61, 0x6F, 0xC0]

/-- The byte sequence the code actually emits for the first probe. -/
def c2_actual_bytes : List Nat :=
  [0xC0, 0x00, 0xAE, 0x62, 0x82, 0xAE, 0x40, 0x40, 0xE0,
   0x9C, 0x60, 0x86, 0x82, 0x98, 0x40, 0x61, 0x7F, 0xC0]

/-- The local station used in concrete scenarios. -/
def nocalChars : List Char := ['N', '0', 'C', 'A', 'L']

/-- The peer station used in concrete scenarios. -/
def w1awChars : List Char := ['W', '1', 'A', 'W']

/-- An AX.25 frame as the peer would address it to us (dest `N0CAL`, src
`W1AW`, no digipeaters, command orientation), followed by the given control
(and optional PID/info) bytes. -/
def peerFrame (ctl : List Nat) : List Nat :=
  build_ax25_header nocalChars w1awChars [] true ++ ctl

/-- A link that has completed the handshake with `W1AW`. -/
def connLink : Link :=
  { initLink nocalChars with state := .CONNECTED, dest := some w1awChars }

/-- A link still in AWAIT_UA with one queued line `"hi"`. -/
def awaitLink : Link :=
  { initLink nocalChars with
    state := .AWAIT_UA, dest := some w1awChars, pending := [['h', 'i']] }

/-- A UA response frame with F=1 from the peer (control `0x73`). -/
def uaFrameBytes : List Nat := peerFrame [CTRL_UA ||| 0x10]

/-- A DM frame from the peer (control `0x0F`). -/
def dmFrameBytes : List Nat := peerFrame [CTRL_DM]

end SPT

namespace SPT

/-! ### Helper lemmas -/

theorem replace1_append (a : Nat) (sub : List Nat) (l1 l2 : List Nat) :
    replace1 a sub (l1 ++ l2) = replace1 a sub l1 ++ replace1 a sub l2 := by
  induction l1 with
  | nil => simp [replace1]
  | cons b t ih => simp [replace1, ih]

theorem kiss_escape_cons_fesc (l : List Nat) :
    kiss_escape (FESC :: l) = FESC :: TFESC :: kiss_escape l := by
  simp [kiss_escape, replace1, replace1_append, FESC, FEND, TFESC, TFEND]

theorem kiss_escape_cons_fend (l : List Nat) :
    kiss_escape (FEND :: l) = FESC :: TFEND :: kiss_escape l := by
  simp [kiss_escape, replace1, replace1_append, FESC, FEND, TFESC, TFEND]

theorem kiss_escape_cons_other (b : Nat) (l : List Nat) (h1 : b ≠ FESC)
    (h2 : b ≠ FEND) : kiss_escape (b :: l) = b :: kiss_escape l := by
  simp [kiss_escape, replace1, replace1_append, h1, h2]

theorem kiss_unescape_fesc_tfesc (l : List Nat) :
    kiss_unescape (FESC :: TFESC :: l) = FESC :: kiss_unescape l := by
  simp [kiss_unescape, FESC, FEND, TFESC, TFEND]

theorem kiss_unescape_fesc_tfend (l : List Nat) :
    kiss_unescape (FESC :: TFEND :: l) = FEND :: kiss_unescape l := by
  simp [kiss_unescape, FESC, FEND, TFESC, TFEND]

theorem kiss_unescape_cons (b : Nat) (l : List Nat) (h : b ≠ FESC) :
    kiss_unescape (b :: l) = b :: kiss_unescape l := by
  cases l with
  | nil => rfl
  | cons c t => simp [kiss_unescape, h]

/-! ### C1 -/

/-- C1: KISS escaping followed by unescaping is the identity on every byte
string, including payloads containing `0xC0` and `0xDB`. -/
theorem kiss_unescape_escape (b : List Nat) : kiss_unescape (kiss_escape b) = b := by
  induction b with
  | nil => rfl
  | cons x t ih =>
    by_cases h1 : x = FESC
    · subst h1; rw [kiss_escape_cons_fesc, kiss_unescape_fesc_tfesc, ih]
    · by_cases h2 : x = FEND
      · subst h2; rw [kiss_escape_cons_fend, kiss_unescape_fesc_tfend, ih]
      · rw [kiss_escape_cons_other x t h1 h2, kiss_unescape_cons x _ h1, ih]

/-! ### C10 -/

/-- C10: `kiss_unescape` is total and a trailing `FESC` with no byte after
it is emitted literally: on a payload with no other `FESC`, unescaping
leaves the payload (and its final `FESC`) unchanged. -/
theorem unescape_trailing_fesc (l : List Nat) (h : FESC ∉ l) :
    kiss_unescape (l ++ [FESC]) = l ++ [FESC] := by
  induction l with
  | nil => rfl
  | cons b t ih =>
    have hb : b ≠ FESC := fun e => h (e ▸ List.mem_cons_self b t)
    rw [List.cons_append, kiss_unescape_cons b _ hb,
      ih (fun hm => h (List.mem_cons_of_mem b hm))]

theorem unescape_trailing_fesc_witness :
    kiss_unescape ([0x41, 0xC0] ++ [FESC]) = [0x41, 0xC0] ++ [FESC] :=
  unescape_trailing_fesc [0x41, 0xC0] (by decide)

/-! ### C2 -/

/-- C2 (counterexample): with MYCALL `N0CAL-0`, peer `W1AW-0` and an empty
digipath, the first probe emitted by `call` is NOT the byte sequence
`FEND 00 82 E2 82 82 A0 A0 60 9C 9E 82 86 A0 A0 61 6F FEND` given in the
specification. -/
theorem sabme_probe_spec_cex :
    (call_first_probe (initLink ['N', '0', 'C', 'A', 'L', '-', '0'])
        ['W', '1', 'A', 'W', '-', '0']).2 ≠ c2_spec_bytes := by
  decide

/-- C2 (amended): with MYCALL `N0CAL-0`, peer `W1AW-0` and an empty
digipath, the first handshake probe emitted by `call` is exactly
`FEND 00 AE 62 82 AE 40 40 E0 9C 60 86 82 98 40 61 7F FEND`: a KISS data
frame whose AX.25 control byte is `0x7F = SABME (0x6F) with P=1`. -/
theorem sabme_probe_bytes :
    (call_first_probe (initLink ['N', '0', 'C', 'A', 'L', '-', '0'])
        ['W', '1', 'A', 'W', '-', '0']).2 = c2_actual_bytes
      ∧ c2_actual_bytes.getD 16 0 = CTRL_SABME ||| 0x10
      ∧ (call_first_probe (initLink ['N', '0', 'C', 'A', 'L', '-', '0'])
        ['W', '1', 'A', 'W', '-', '0']).1.state = LinkState.AWAIT_UA := by
  refine ⟨by decide, by decide, by decide⟩

/-! ### C9 -/

theorem update_recent_tail_more (l : Link) (s : List Char) :
    (update_recent_tail l s).more_prompt_pending = l.more_prompt_pending := by
  unfold update_recent_tail; split <;> rfl

/-- C9 (amended): in SPT.py the frame-processing step never resets
`more_prompt_pending`: whatever `_detect_pager_prompt` reports,
`_check_more_prompt` leaves the flag at its old value or raises it — it can
only be cleared elsewhere (by the explicit user continue/abort action).  In
the GPT.py variant, by contrast, a non-empty line matching no pattern DOES
clear the flag (see the counterexample). -/
theorem pager_flag_monotone (det : Detector) (l : Link) (text : List Char) :
    (check_more_prompt det l text).more_prompt_pending
      = (l.more_prompt_pending
          || det (update_recent_tail l text).recent_tail text) := by
  unfold check_more_prompt
  by_cases h : det (update_recent_tail l text).recent_tail text
  · simp [h]
  · simp [h, update_recent_tail_more]

/-- C9 (counterexample): in the GPT.py variant of `_check_more_prompt`, a
received line (here `"NO"`) that matches no pager-prompt pattern clears an
already-set `more_prompt_pending` flag. -/
theorem pager_flag_cleared_gpt_cex :
    check_more_prompt_gpt (fun _ => false) true ['N', 'O'] = false := by
  decide

/-! ### Helper lemmas for the address codec -/

theorem alnum_facts : ∀ c ∈ upperAlnumChars,
    Char.toUpper c = c ∧ dec_char (enc_char c) = c ∧ isPySpace c = false ∧ c ≠ '-' := by
  decide

theorem map_eq_self_of {α : Type} (f : α → α) (l : List α) (h : ∀ c ∈ l, f c = c) :
    l.map f = l := by
  induction l with
  | nil => rfl
  | cons c t ih =>
    simp only [List.map_cons, h c (List.mem_cons_self c t),
      ih (fun x hx => h x (List.mem_cons_of_mem c hx))]

theorem takeUntilDash_append (xs ys : List Char) (h : ∀ c ∈ xs, c ≠ '-') :
    takeUntilDash (xs ++ '-' :: ys) = xs := by
  induction xs with
  | nil => simp [takeUntilDash]
  | cons c t ih =>
    simp [takeUntilDash, h c (List.mem_cons_self c t),
      ih (fun x hx => h x (List.mem_cons_of_mem c hx))]

theorem takeUntilDash_all (xs : List Char) (h : ∀ c ∈ xs, c ≠ '-') :
    takeUntilDash xs = xs := by
  induction xs with
  | nil => rfl
  | cons c t ih =>
    simp [takeUntilDash, h c (List.mem_cons_self c t),
      ih (fun x hx => h x (List.mem_cons_of_mem c hx))]

theorem dropThroughDash_append (xs ys : List Char) (h : ∀ c ∈ xs, c ≠ '-') :
    dropThroughDash (xs ++ '-' :: ys) = ys := by
  induction xs with
  | nil => simp [dropThroughDash]
  | cons c t ih =>
    simp [dropThroughDash, h c (List.mem_cons_self c t),
      ih (fun x hx => h x (List.mem_cons_of_mem c hx))]

theorem dropWhile_replicate_append (p : Char → Bool) (a : Char) (hp : p a = true)
    (n : Nat) (l : List Char) :
    List.dropWhile p (List.replicate n a ++ l) = List.dropWhile p l := by
  induction n with
  | zero => simp
  | succ m ih => simp [List.replicate_succ, List.dropWhile_cons, hp, ih]

theorem dropWhile_of_all_false (p : Char → Bool) (l : List Char)
    (h : ∀ c ∈ l, p c = false) : List.dropWhile p l = l := by
  cases l with
  | nil => rfl
  | cons c t => simp [List.dropWhile_cons, h c (List.mem_cons_self c t)]

theorem pyRstrip_append_spaces (l : List Char) (n : Nat)
    (h : ∀ c ∈ l, isPySpace c = false) :
    pyRstrip (l ++ List.replicate n ' ') = l := by
  unfold pyRstrip
  rw [List.reverse_append, List.reverse_replicate,
    dropWhile_replicate_append isPySpace ' ' (by decide) n l.reverse,
    dropWhile_of_all_false isPySpace l.reverse (fun c hc => h c (List.mem_reverse.mp hc)),
    List.reverse_reverse]

theorem getD_append_self (l1 l2 : List Nat) (d : Nat) :
    (l1 ++ l2).getD l1.length d = l2.getD 0 d := by
  induction l1 with
  | nil => rfl
  | cons b t ih => simpa [List.getD_cons_succ] using ih

theorem ssid_facts (s : Nat) (hs : s ≤ 15) :
    pyUpper (ssid_str s) = ssid_str s
      ∧ (∀ c ∈ ssid_str s, c ≠ '-')
      ∧ digitsToNat (ssid_str s) = s
      ∧ s &&& 0x0F = s
      ∧ ((0x60 ||| (s <<< 1)) >>> 1) &&& 0x0F = s := by
  interval_cases s <;> exact ⟨by decide, by decide, by decide, by decide, by decide⟩

theorem take6_append_replicate (l : List Char) (h : l.length ≤ 6) :
    (l ++ List.replicate 6 ' ').take 6 = l ++ List.replicate (6 - l.length) ' ' := by
  rw [show List.replicate 6 ' '
      = List.replicate (6 - l.length) ' ' ++ List.replicate l.length ' ' from by
    rw [← List.replicate_add]; congr 1; omega]
  rw [← List.append_assoc]
  exact List.take_left' (by simp; omega)

/-! ### C3 -/

/-- C3: for every callsign base of 1-6 uppercase letters/digits and every
SSID `s` in [0,15], the 7-byte address built with
`is_last = is_command = has_been_repeated = false` consists of the base
right-padded with spaces to 6 shifted characters plus the SSID byte
`0x60 | (s << 1)`, and decoding it recovers exactly the callsign string
`base-s` (base uppercase, padding stripped, SSID `s`). -/
theorem addr_roundtrip (base : List Char) (s : Nat) (_hne : base ≠ [])
    (hlen : base.length ≤ 6) (hc : ∀ c ∈ base, c ∈ upperAlnumChars) (hs : s ≤ 15) :
    ax25_addr_bytes (base ++ '-' :: ssid_str s) false false false
      = (base ++ List.replicate (6 - base.length) ' ').map enc_char
          ++ [0x60 ||| (s <<< 1)]
    ∧ decode7 (ax25_addr_bytes (base ++ '-' :: ssid_str s) false false false)
      = base ++ '-' :: ssid_str s := by
  obtain ⟨hu, hdash, hdig, hmask, hdec⟩ := ssid_facts s hs
  have hnd : ∀ c ∈ base, c ≠ '-' := fun c h => (alnum_facts c (hc c h)).2.2.2
  have hub : pyUpper base = base :=
    map_eq_self_of _ _ (fun c h => (alnum_facts c (hc c h)).1)
  have hup : pyUpper (base ++ '-' :: ssid_str s) = base ++ '-' :: ssid_str s := by
    show (base ++ '-' :: ssid_str s).map Char.toUpper = _
    rw [List.map_append, List.map_cons]
    show (pyUpper base ++ Char.toUpper '-' :: pyUpper (ssid_str s)) = _
    rw [hub, hu, show Char.toUpper '-' = '-' from by decide]
  have hmem : '-' ∈ base ++ '-' :: ssid_str s :=
    List.mem_append_right _ (List.mem_cons_self _ _)
  have henc : ax25_addr_bytes (base ++ '-' :: ssid_str s) false false false
      = (base ++ List.replicate (6 - base.length) ' ').map enc_char
          ++ [0x60 ||| (s <<< 1)] := by
    simp only [ax25_addr_bytes]
    rw [hup, takeUntilDash_append base _ hnd, if_pos hmem,
      dropThroughDash_append base _ hnd, takeUntilDash_all _ hdash, hdig,
      take6_append_replicate base hlen, hmask]
    simp
  refine ⟨henc, ?_⟩
  rw [henc]
  have hlen6 : ((base ++ List.replicate (6 - base.length) ' ').map enc_char).length = 6 := by
    simp; omega
  have hchars : ∀ c ∈ base ++ List.replicate (6 - base.length) ' ',
      (dec_char ∘ enc_char) c = c := by
    intro c hm
    simp only [Function.comp_apply]
    rcases List.mem_append.mp hm with h | h
    · exact (alnum_facts c (hc c h)).2.1
    · rw [(List.mem_replicate.mp h).2]; decide
  have hg := getD_append_self ((base ++ List.replicate (6 - base.length) ' ').map enc_char)
    [0x60 ||| (s <<< 1)] 0
  rw [hlen6] at hg
  unfold decode7
  rw [List.take_left' hlen6, List.map_map,
    map_eq_self_of (dec_char ∘ enc_char) _ hchars,
    pyRstrip_append_spaces base _ (fun c h => (alnum_facts c (hc c h)).2.2.1),
    hg]
  rw [show ([0x60 ||| (s <<< 1)].getD 0 0) = 0x60 ||| (s <<< 1) from rfl, hdec]

theorem addr_roundtrip_witness :
    decode7 (ax25_addr_bytes (['K', 'C', '3'] ++ '-' :: ssid_str 12) false false false)
      = ['K', 'C', '3'] ++ '-' :: ssid_str 12 :=
  (addr_roundtrip ['K', 'C', '3'] 12 (by decide) (by decide) (by decide) (by decide)).2

/-! ### C4 -/

theorem iframe_ctrl_bits (vs vr : Nat) (hvs : vs < 8) (hvr : vr < 8) :
    ((((vs &&& 0x07) <<< 1) ||| ((vr &&& 0x07) <<< 5)) >>> 1) &&& 0x07 = vs
    ∧ ((((vs &&& 0x07) <<< 1) ||| ((vr &&& 0x07) <<< 5)) >>> 5) &&& 0x07 = vr
    ∧ (((vs &&& 0x07) <<< 1) ||| ((vr &&& 0x07) <<< 5)) &&& 0x10 = 0
    ∧ (((vs &&& 0x07) <<< 1) ||| ((vr &&& 0x07) <<< 5)) &&& 0x01 = 0
    ∧ (vs + 1) &&& 7 = (vs + 1) % 8 := by
  interval_cases vs <;> interval_cases vr <;> decide

/-- C4: a `send_text line` issued while CONNECTED transmits exactly one
I-frame, whose info field is `line ++ tx_newline` (UTF-8), whose control
byte carries N(s) = the pre-call `vs`, N(r) = `vr`, P/F = 0 (and I-frame
bit 0 = 0); afterwards `vs` has advanced by one modulo 8 and `vr` is
unchanged. -/
theorem send_text_iframe (l : Link) (line : List Char) (d : List Char)
    (hst : l.state = LinkState.CONNECTED) (hd : l.dest = some d)
    (hvs : l.vs < 8) (hvr : l.vr < 8) :
    (send_text l line).2
      = [kiss_wrap_data 0 (build_ax25_header d l.mycall l.digis true
          ++ [((l.vs &&& 0x07) <<< 1) ||| ((l.vr &&& 0x07) <<< 5), PID_NO_L3]
          ++ utf8Encode (line ++ l.tx_newline))]
    ∧ ((((l.vs &&& 0x07) <<< 1) ||| ((l.vr &&& 0x07) <<< 5)) >>> 1) &&& 0x07 = l.vs
    ∧ ((((l.vs &&& 0x07) <<< 1) ||| ((l.vr &&& 0x07) <<< 5)) >>> 5) &&& 0x07 = l.vr
    ∧ (((l.vs &&& 0x07) <<< 1) ||| ((l.vr &&& 0x07) <<< 5)) &&& 0x10 = 0
    ∧ (((l.vs &&& 0x07) <<< 1) ||| ((l.vr &&& 0x07) <<< 5)) &&& 0x01 = 0
    ∧ (send_text l line).1.vs = (l.vs + 1) % 8
    ∧ (send_text l line).1.vr = l.vr := by
  obtain ⟨h1, h2, h3, h4, h5⟩ := iframe_ctrl_bits l.vs l.vr hvs hvr
  refine ⟨?_, h1, h2, h3, h4, ?_, ?_⟩
  · simp [send_text, send_i, hd, hst]
  · simp [send_text, send_i, hd, hst, h5]
  · simp [send_text, send_i, hd, hst]

theorem send_text_iframe_witness :
    (send_text { connLink with vs := 2, vr := 3 } ['H', 'I']).2
      = [[0xC0, 0x00, 0xAE, 0x62, 0x82, 0xAE, 0x40, 0x40, 0xE0,
          0x9C, 0x60, 0x86, 0x82, 0x98, 0x40, 0x61, 0x64, 0xF0,
          0x48, 0x49, 0x0D, 0xC0]]
      ∧ (send_text { connLink with vs := 2, vr := 3 } ['H', 'I']).1.vs = 3 := by
  have h := send_text_iframe { connLink with vs := 2, vr := 3 } ['H', 'I'] w1awChars
    (by decide) (by decide) (by decide) (by decide)
  exact ⟨by rw [h.1]; decide, by rw [h.2.2.2.2.2.1]; decide⟩

/-! ### C5 -/

/-- C5: when an I-frame arrives in state AWAIT_UA (the implicit-UA case,
here carrying an empty info field), the engine does latch CONNECTED and
acknowledge the frame with one RR — but, contrary to the specification and
to the code's own NOTE comment, it never drains the pending queue: the
queued line `"hi"` stays in `pending` and no I-frame carrying it is
transmitted (the only frame sent is the RR with N(r)=1). -/
theorem implicit_connect_no_flush :
    (handle_ax25 detFalse awaitLink (peerFrame [0x00, 0xF0])).link.state
        = LinkState.CONNECTED
    ∧ (handle_ax25 detFalse awaitLink (peerFrame [0x00, 0xF0])).link.pending
        = [['h', 'i']]
    ∧ (handle_ax25 detFalse awaitLink (peerFrame [0x00, 0xF0])).tx
        = [kiss_wrap_data 0 (build_ax25_header w1awChars nocalChars [] false ++ [0x21])] := by
  refine ⟨by decide, by decide, by decide⟩

/-! ### C6 -/

theorem send_i_pending (l : Link) (t : List Nat) :
    (send_i l t).1.pending = l.pending ∧ (send_i l t).1.state = l.state := by
  unfold send_i
  constructor <;> split <;> first | rfl | (split <;> rfl)

theorem send_text_all_preserves (lines : List (List Char)) :
    ∀ l : Link, (send_text_all l lines).1.pending = l.pending
      ∧ (send_text_all l lines).1.state = l.state := by
  induction lines with
  | nil => intro l; exact ⟨rfl, rfl⟩
  | cons ln rest ih =>
    intro l
    constructor
    · show (send_text_all (send_text l ln).1 rest).1.pending = l.pending
      rw [(ih (send_text l ln).1).1]
      exact (send_i_pending l _).1
    · show (send_text_all (send_text l ln).1 rest).1.state = l.state
      rw [(ih (send_text l ln).1).2]
      exact (send_i_pending l _).2

theorem flush_after_connect_preserves (l : Link) :
    (flush_after_connect l).1.pending = [] ∧ (flush_after_connect l).1.state = l.state := by
  unfold flush_after_connect
  exact ⟨(send_text_all_preserves l.pending _).1,
    (send_text_all_preserves l.pending _).2⟩

/-- C6 (counterexample): a second DM received while AWAIT_UA (fallback
already tried) moves the link to DISCONNECTED but leaves the queued line in
`pending`, so a non-empty `pending` is retained into DISCONNECTED —
contradicting the claimed invariant. -/
theorem pending_retained_dm_cex :
    (handle_ax25 detFalse { awaitLink with dm_fallback_tried := true }
        dmFrameBytes).link.state = LinkState.DISCONNECTED
    ∧ (handle_ax25 detFalse { awaitLink with dm_fallback_tried := true }
        dmFrameBytes).link.pending ≠ [] := by
  refine ⟨by decide, by decide⟩

/-- C6 (amended): `pending` is cleared on every `call` entry and by
`disconnect`, and it is drained exactly at the UA-triggered CONNECTED
transition; but it is NOT cleared on retry exhaustion (`call_timeout`) nor
on the terminal-DM exit from AWAIT_UA (nor on the implicit I-frame connect,
see C5), so the pending queue can remain non-empty in DISCONNECTED (and
CONNECTED) states. -/
theorem pending_queue_policy (det : Detector) (l : Link) (d : List Char)
    (hst : l.state = LinkState.AWAIT_UA) (htried : l.dm_fallback_tried = true) :
    (call_entry l d).pending = []
    ∧ (disconnect l).1.pending = []
    ∧ (call_timeout l).pending = l.pending
    ∧ (handle_ax25 det l uaFrameBytes).link.pending = []
    ∧ (handle_ax25 det l uaFrameBytes).link.state = LinkState.CONNECTED
    ∧ (handle_ax25 det l dmFrameBytes).link.state = LinkState.DISCONNECTED
    ∧ (handle_ax25 det l dmFrameBytes).link.pending = l.pending := by
  have hua : handle_ax25 det l uaFrameBytes
      = ⟨(flush_after_connect { l with ua_event := true, state := LinkState.CONNECTED }).1,
         (flush_after_connect { l with ua_event := true, state := LinkState.CONNECTED }).2,
         []⟩ := by
    simp only [handle_ax25]
    rw [show (decode_addrs uaFrameBytes).2.2 = 14 from by decide]
    rw [show uaFrameBytes.getD 14 0 = 0x73 from by decide]
    rw [if_neg (by decide : ¬((14 : Nat) = 0 ∨ uaFrameBytes.length ≤ 14))]
    rw [if_neg (by decide : ¬((0x73 : Nat) &&& 0x01 = 0))]
    rw [if_neg (by decide : ¬((0x73 : Nat) &&& 0xEF = CTRL_UI))]
    rw [if_pos (by decide : (0x73 : Nat) &&& 0xEF = CTRL_UA)]
    rw [show ({ l with ua_event := true } : Link).state = l.state from rfl, hst]
    rw [if_pos rfl]
  have hdm : handle_ax25 det l dmFrameBytes
      = ⟨{ l with state := LinkState.DISCONNECTED, dest := none, appbuf := [] }, [], []⟩ := by
    simp only [handle_ax25]
    rw [show (decode_addrs dmFrameBytes).2.2 = 14 from by decide]
    rw [show dmFrameBytes.getD 14 0 = 0x0F from by decide]
    rw [if_neg (by decide : ¬((14 : Nat) = 0 ∨ dmFrameBytes.length ≤ 14))]
    rw [if_neg (by decide : ¬((0x0F : Nat) &&& 0x01 = 0))]
    rw [if_neg (by decide : ¬((0x0F : Nat) &&& 0xEF = CTRL_UI))]
    rw [if_neg (by decide : ¬((0x0F : Nat) &&& 0xEF = CTRL_UA))]
    rw [if_pos (by decide : (0x0F : Nat) &&& 0xEF = CTRL_DM)]
    rw [if_neg (fun h => by rw [htried] at h; exact absurd h.2.2 (by decide))]
  refine ⟨rfl, rfl, rfl, ?_, ?_, ?_, ?_⟩
  · rw [hua]; exact (flush_after_connect_preserves _).1
  · rw [hua]; exact (flush_after_connect_preserves _).2
  · rw [hdm]
  · rw [hdm]

theorem pending_queue_policy_witness :
    (handle_ax25 detFalse { awaitLink with dm_fallback_tried := true }
        uaFrameBytes).link.pending = []
    ∧ (handle_ax25 detFalse { awaitLink with dm_fallback_tried := true }
        dmFrameBytes).link.pending = [['h', 'i']] := by
  have h := pending_queue_policy detFalse { awaitLink with dm_fallback_tried := true }
    w1awChars (by decide) (by decide)
  exact ⟨h.2.2.2.1, by rw [h.2.2.2.2.2.2]; rfl⟩

/-! ### C7 -/

theorem rr_ctrl_bits (vr : Nat) (hvr : vr < 8) :
    (S_RR ||| ((vr &&& 0x07) <<< 5)) &&& 0x10 = 0
    ∧ ((S_RR ||| ((vr &&& 0x07) <<< 5)) >>> 5) &&& 0x07 = vr
    ∧ (S_RR ||| ((vr &&& 0x07) <<< 5)) &&& 0x01 = 1 := by
  interval_cases vr <;> decide

/-- C7: an I-frame received while CONNECTED whose N(s) differs from `vr`
produces exactly one RR in response orientation with F=0 and N(r)=`vr`,
leaves the whole link state (including `vr` and `appbuf`) unchanged, and
emits no payload line. -/
theorem out_of_order_rr (det : Detector) (l : Link) (raw : List Nat) (d : List Char)
    (i : Nat) (hst : l.state = LinkState.CONNECTED) (hd : l.dest = some d)
    (hvr : l.vr < 8) (hi : (decode_addrs raw).2.2 = i) (hi0 : i ≠ 0)
    (hlen : i + 1 < raw.length) (hI : raw.getD i 0 &&& 0x01 = 0)
    (hns : (raw.getD i 0 >>> 1) &&& 0x07 ≠ l.vr) :
    handle_ax25 det l raw
      = ⟨l, [kiss_wrap_data 0 (build_ax25_header d l.mycall l.digis false
          ++ [S_RR ||| ((l.vr &&& 0x07) <<< 5)])], []⟩
    ∧ (S_RR ||| ((l.vr &&& 0x07) <<< 5)) &&& 0x10 = 0
    ∧ ((S_RR ||| ((l.vr &&& 0x07) <<< 5)) >>> 5) &&& 0x07 = l.vr
    ∧ (S_RR ||| ((l.vr &&& 0x07) <<< 5)) &&& 0x01 = 1 := by
  obtain ⟨hb1, hb2, hb3⟩ := rr_ctrl_bits l.vr hvr
  refine ⟨?_, hb1, hb2, hb3⟩
  simp only [handle_ax25]
  rw [hi]
  rw [if_neg (by omega : ¬(i = 0 ∨ raw.length ≤ i))]
  rw [if_pos hI]
  rw [if_neg (by omega : ¬(raw.length ≤ i + 1))]
  rw [hst]
  rw [if_neg (by decide : ¬(LinkState.CONNECTED = LinkState.AWAIT_UA))]
  rw [if_neg hns]
  simp only [send_rr, hd]
  rw [if_neg (by decide : ¬((0 : Nat) ≠ 0))]

theorem out_of_order_rr_witness :
    handle_ax25 detFalse connLink (peerFrame [0x02, 0xF0])
      = ⟨connLink, [kiss_wrap_data 0 (build_ax25_header w1awChars nocalChars [] false
          ++ [S_RR ||| ((connLink.vr &&& 0x07) <<< 5)])], []⟩ := by
  have h := out_of_order_rr detFalse connLink (peerFrame [0x02, 0xF0]) w1awChars 14
    (by decide) (by decide) (by decide) (by decide) (by decide) (by decide)
    (by decide) (by decide)
  exact h.1

/-! ### C8 -/

theorem check_more_prompt_appbuf (det : Detector) (l : Link) (text : List Char) :
    (check_more_prompt det l text).appbuf = l.appbuf := by
  simp only [check_more_prompt, update_recent_tail]
  split <;> split <;> rfl

theorem emit_lines_appbuf (det : Detector) (lines : List (List Char)) :
    ∀ l : Link, (emit_lines det l lines).1.appbuf = l.appbuf := by
  induction lines with
  | nil => intro l; rfl
  | cons ln rest ih =>
    intro l
    show (emit_lines det (check_more_prompt det l (pyRstrip ln)) rest).1.appbuf = l.appbuf
    rw [ih, check_more_prompt_appbuf]

theorem emit_lines_out (det : Detector) (lines : List (List Char)) :
    ∀ l : Link, (emit_lines det l lines).2 = lines.map pyRstrip := by
  induction lines with
  | nil => intro l; rfl
  | cons ln rest ih =>
    intro l
    show pyRstrip ln :: (emit_lines det (check_more_prompt det l (pyRstrip ln)) rest).2
      = pyRstrip ln :: rest.map pyRstrip
    rw [ih]

/-- C8 (counterexample): while CONNECTED with an empty `appbuf`, an in-order
I-frame with P/F=1 whose info is a single space leaves `appbuf = " "`
non-empty (and emits no payload line): contrary to the claim, a non-empty
whitespace-only partial is neither flushed as a final line nor cleared. -/
theorem partial_whitespace_cex :
    (handle_ax25 detFalse connLink (peerFrame [0x10, 0xF0, 0x20])).link.appbuf ≠ []
    ∧ (handle_ax25 detFalse connLink (peerFrame [0x10, 0xF0, 0x20])).link.appbuf = [' ']
    ∧ (handle_ax25 detFalse connLink (peerFrame [0x10, 0xF0, 0x20])).rx_lines = [] := by
  refine ⟨by decide, by decide, by decide⟩

/-- C8 (amended): for an in-order I-frame accepted while CONNECTED, after
emitting all newline-terminated lines, with P/F=1 the remaining partial is
emitted (right-stripped) as a final payload line and `appbuf` cleared
exactly when the partial right-strips to something non-empty; a
whitespace-only partial is neither emitted nor cleared, and with P/F=0 the
partial is always retained in `appbuf`. -/
theorem partial_flush_policy (det : Detector) (l : Link) (raw : List Nat)
    (d : List Char) (i : Nat) (hst : l.state = LinkState.CONNECTED)
    (_hd : l.dest = some d) (hi : (decode_addrs raw).2.2 = i) (hi0 : i ≠ 0)
    (hlen : i + 1 < raw.length) (hI : raw.getD i 0 &&& 0x01 = 0)
    (hns : (raw.getD i 0 >>> 1) &&& 0x07 = l.vr) :
    (raw.getD i 0 &&& 0x10 ≠ 0 →
        pyRstrip (splitLines (l.appbuf ++ normNewlines (utf8Decode (raw.drop (i + 2))))).2 ≠ [] →
        (handle_ax25 det l raw).rx_lines
          = (splitLines (l.appbuf ++ normNewlines (utf8Decode (raw.drop (i + 2))))).1.map pyRstrip
            ++ [pyRstrip (splitLines (l.appbuf ++ normNewlines (utf8Decode (raw.drop (i + 2))))).2]
        ∧ (handle_ax25 det l raw).link.appbuf = [])
    ∧ (raw.getD i 0 &&& 0x10 ≠ 0 →
        pyRstrip (splitLines (l.appbuf ++ normNewlines (utf8Decode (raw.drop (i + 2))))).2 = [] →
        (handle_ax25 det l raw).rx_lines
          = (splitLines (l.appbuf ++ normNewlines (utf8Decode (raw.drop (i + 2))))).1.map pyRstrip
        ∧ (handle_ax25 det l raw).link.appbuf
          = (splitLines (l.appbuf ++ normNewlines (utf8Decode (raw.drop (i + 2))))).2)
    ∧ (raw.getD i 0 &&& 0x10 = 0 →
        (handle_ax25 det l raw).rx_lines
          = (splitLines (l.appbuf ++ normNewlines (utf8Decode (raw.drop (i + 2))))).1.map pyRstrip
        ∧ (handle_ax25 det l raw).link.appbuf
          = (splitLines (l.appbuf ++ normNewlines (utf8Decode (raw.drop (i + 2))))).2) := by
  have hred : ∀ det2 : Detector, handle_ax25 det2 l raw = handle_ax25 det2 l raw := fun _ => rfl
  refine ⟨fun hpf hpeek => ?_, fun hpf hpeek => ?_, fun hpf => ?_⟩
  · simp only [handle_ax25]
    rw [hi]
    rw [if_neg (by omega : ¬(i = 0 ∨ raw.length ≤ i))]
    rw [if_pos hI]
    rw [if_neg (by omega : ¬(raw.length ≤ i + 1))]
    rw [hst]
    rw [if_neg (by decide : ¬(LinkState.CONNECTED = LinkState.AWAIT_UA))]
    rw [if_pos hns]
    rw [if_pos hpf]
    have hax : (emit_lines det { { l with vr := (l.vr + 1) &&& 7 } with
          appbuf := (splitLines ({ l with vr := (l.vr + 1) &&& 7 }.appbuf
            ++ normNewlines (utf8Decode (raw.drop (i + 2))))).2 }
        (splitLines ({ l with vr := (l.vr + 1) &&& 7 }.appbuf
          ++ normNewlines (utf8Decode (raw.drop (i + 2))))).1).1.appbuf
        = (splitLines (l.appbuf ++ normNewlines (utf8Decode (raw.drop (i + 2))))).2 := by
      rw [emit_lines_appbuf]
    have hsp : (splitLines (l.appbuf ++ normNewlines (utf8Decode (raw.drop (i + 2))))).2 ≠ [] :=
      fun e => hpeek (by rw [e]; rfl)
    rw [if_pos ⟨(by decide : (1 : Nat) ≠ 0), (by rw [hax]; exact hsp)⟩]
    rw [if_pos (show _ ≠ ([] : List Char) from by rw [hax]; exact hpeek)]
    constructor
    · show (emit_lines det _ _).2 ++ [pyRstrip (emit_lines det _ _).1.appbuf] = _
      rw [emit_lines_out, hax]
    · rfl
  · simp only [handle_ax25]
    rw [hi]
    rw [if_neg (by omega : ¬(i = 0 ∨ raw.length ≤ i))]
    rw [if_pos hI]
    rw [if_neg (by omega : ¬(raw.length ≤ i + 1))]
    rw [hst]
    rw [if_neg (by decide : ¬(LinkState.CONNECTED = LinkState.AWAIT_UA))]
    rw [if_pos hns]
    rw [if_pos hpf]
    have hax : (emit_lines det { { l with vr := (l.vr + 1) &&& 7 } with
          appbuf := (splitLines ({ l with vr := (l.vr + 1) &&& 7 }.appbuf
            ++ normNewlines (utf8Decode (raw.drop (i + 2))))).2 }
        (splitLines ({ l with vr := (l.vr + 1) &&& 7 }.appbuf
          ++ normNewlines (utf8Decode (raw.drop (i + 2))))).1).1.appbuf
        = (splitLines (l.appbuf ++ normNewlines (utf8Decode (raw.drop (i + 2))))).2 := by
      rw [emit_lines_appbuf]
    by_cases hsp : (splitLines (l.appbuf ++ normNewlines (utf8Decode (raw.drop (i + 2))))).2 = []
    · split_ifs with h1 h2
      · rw [hax] at h2; exact absurd hpeek h2
      · refine ⟨?_, ?_⟩
        · show (emit_lines det _ _).2 = _
          rw [emit_lines_out]
        · show (emit_lines det _ _).1.appbuf = _
          rw [hax]
      · refine ⟨?_, ?_⟩
        · show (emit_lines det _ _).2 = _
          rw [emit_lines_out]
        · show (emit_lines det _ _).1.appbuf = _
          rw [hax]
    · rw [if_pos ⟨(by decide : (1 : Nat) ≠ 0), (by rw [hax]; exact hsp)⟩]
      rw [if_neg (fun hh : _ ≠ ([] : List Char) => hh (by rw [hax]; exact hpeek))]
      refine ⟨?_, ?_⟩
      · show (emit_lines det _ _).2 = _
        rw [emit_lines_out]
      · show (emit_lines det _ _).1.appbuf = _
        rw [hax]
  · simp only [handle_ax25]
    rw [hi]
    rw [if_neg (by omega : ¬(i = 0 ∨ raw.length ≤ i))]
    rw [if_pos hI]
    rw [if_neg (by omega : ¬(raw.length ≤ i + 1))]
    rw [hst]
    rw [if_neg (by decide : ¬(LinkState.CONNECTED = LinkState.AWAIT_UA))]
    rw [if_pos hns]
    rw [if_neg (fun hh : _ ≠ (0 : Nat) => hh hpf)]
    have hax : (emit_lines det { { l with vr := (l.vr + 1) &&& 7 } with
          appbuf := (splitLines ({ l with vr := (l.vr + 1) &&& 7 }.appbuf
            ++ normNewlines (utf8Decode (raw.drop (i + 2))))).2 }
        (splitLines ({ l with vr := (l.vr + 1) &&& 7 }.appbuf
          ++ normNewlines (utf8Decode (raw.drop (i + 2))))).1).1.appbuf
        = (splitLines (l.appbuf ++ normNewlines (utf8Decode (raw.drop (i + 2))))).2 := by
      rw [emit_lines_appbuf]
    rw [if_neg (fun hh : (0 : Nat) ≠ 0 ∧ _ => hh.1 rfl)]
    refine ⟨?_, ?_⟩
    · show (emit_lines det _ _).2 = _
      rw [emit_lines_out]
    · show (emit_lines det _ _).1.appbuf = _
      rw [hax]

theorem partial_flush_policy_witness :
    (handle_ax25 detFalse connLink (peerFrame [0x10, 0xF0, 0x41, 0x42])).rx_lines
      = [['A', 'B']]
    ∧ (handle_ax25 detFalse connLink (peerFrame [0x10, 0xF0, 0x41, 0x42])).link.appbuf
      = [] := by
  have h := partial_flush_policy detFalse connLink (peerFrame [0x10, 0xF0, 0x41, 0x42])
    w1awChars 14 (by decide) (by decide) (by decide) (by decide) (by decide)
    (by decide) (by decide)
  have h2 := h.1 (by decide) (by decide)
  exact ⟨by rw [h2.1]; decide, by rw [h2.2]⟩

end SPT
